import Mathlib

/-!
Shallow embedding of `src/core/JanusClient.ts` (class `JanusClient`), the
signaling orchestrator for a Janus-style WebRTC gateway: event polling and
dispatch (`startPolling`, `handleJanusEvent`), the event-waiter mechanism
(`waitForJanusEventWithPredicate`), subscriber management
(`subscribeSpeaker`), publisher ICE recovery (`setupPeerEvents`,
`restartIce`), local audio (`pushLocalAudio`, `enableLocalAudio`) and
teardown (`stop`).  Stateful TypeScript is modelled by explicit state
passing over a `ClientState` record; fallible steps return `Except`;
the environment (network outcomes, SDP successes) is passed as explicit
parameters.
-/

namespace JanusClient

/-- An entry of a `publishers` array in a videoroom event payload. -/
structure PublisherEntry where
  id : Nat
  display : String
deriving DecidableEq, Repr

/-- The `plugindata.data` payload of a videoroom event
(interface `JanusVideoroomEvent` in the source). -/
structure VRData where
  videoroom : String
  roomField : Option String := none
  idField : Option Nat := none
  ptype : Option String := none
  publishers : Option (List PublisherEntry) := none
  reason : Option String := none
deriving DecidableEq, Repr

/-- The `plugindata` field of a Janus event. -/
structure Plugindata where
  plugin : String
  data : VRData
deriving DecidableEq, Repr

/-- A JSEP session description attached to an event. -/
structure Jsep where
  sdpType : String
  sdp : String := ""
deriving DecidableEq, Repr

/-- A decoded gateway event (interface `JanusEvent` in the source).
`janus = ""` models a missing/falsy `janus` field. -/
structure JanusEvent where
  janus : String
  sender : Option Nat := none
  plugindata : Option Plugindata := none
  jsep : Option Jsep := none
deriving DecidableEq, Repr

/-- A named emission on the `EventEmitter` that `JanusClient` extends.
`janusChan` is an emission on the channel named `janus`, the channel
`waitForJanusEventWithPredicate` listens on. -/
inductive Emission where
  | publishersUpdated (pubs : List PublisherEntry)
  | hangup (data : VRData)
  | janusChan (evt : JanusEvent)
  | errorE (msg : String)
  | warning (msg : String)
  | subscribedSpeaker (userId : String) (feedId : Nat)
deriving DecidableEq, Repr

/-- `handleJanusEvent` (source lines 918-971): the switch over `evt.janus`
and, for plugin events, over `data.videoroom`.  Returns the list of
emissions the handler performs; branches that only log emit nothing. -/
def handleJanusEvent (evt : JanusEvent) : List Emission :=
  if evt.janus = "" then []
  else
    match evt.janus with
    | "keepalive" => []
    | "event" =>
      match evt.plugindata with
      | some pd =>
        if pd.plugin = "janus.plugin.videoroom" then
          match pd.data.videoroom with
          | "joined" => []
          | "attached" => []
          | "event" =>
            match pd.data.publishers with
            | some pubs => [.publishersUpdated pubs]
            | none => []
          | "webrtcup" => []
          | "hangup" => [.hangup pd.data]
          | _ => []
        else []
      | none => []
    | "success" => []
    | _ => []

/-- The settlement state of the promise returned by
`waitForJanusEventWithPredicate`. -/
inductive PromiseState where
  | pending
  | resolvedWith (evt : JanusEvent)
  | rejectedWith (msg : String)
deriving DecidableEq, Repr

/-- A promise settles at most once: `resolve`/`reject` after the first
settlement are no-ops. -/
def PromiseState.settle (p q : PromiseState) : PromiseState :=
  match p with
  | .pending => q
  | _ => p

/-- The timeout error message built at source line 1002. -/
def timeoutMsg (label : String) : String :=
  "[JanusClient] Timeout waiting for " ++ label ++ " event"

/-- One pending waiter: the predicate and diagnostic label passed to
`waitForJanusEventWithPredicate`, the promise it settles, whether its
`eventHandler` is currently registered as a listener on the `janus`
channel, and whether its timeout is still armed. -/
structure Waiter where
  pred : JanusEvent → Bool
  label : String
  promise : PromiseState
  registered : Bool
  timeoutArmed : Bool

/-- `waitForJanusEventWithPredicate` (source lines 995-1015): arms a
timeout and registers `eventHandler` on the `janus` channel; the promise
starts pending. -/
def waitForJanusEventWithPredicate (pred : JanusEvent → Bool) (label : String) : Waiter :=
  { pred := pred, label := label, promise := .pending
    registered := true, timeoutArmed := true }

/-- The `setTimeout` callback at source lines 1001-1003 firing: it rejects
the promise with the timeout message.  It does NOT remove the listener
(`removeListener` is only called inside `eventHandler`). -/
def fireTimeout (w : Waiter) : Waiter :=
  if w.timeoutArmed then
    { w with promise := w.promise.settle (.rejectedWith (timeoutMsg w.label))
             timeoutArmed := false }
  else w

/-- Delivery of one event on the `janus` channel to one waiter: if the
handler is registered and the predicate matches, it clears the timeout,
removes itself and resolves.  The second component records whether the
handler body ran its matching branch (was invoked with a match). -/
def deliver (w : Waiter) (evt : JanusEvent) : Waiter × Bool :=
  if w.registered then
    if w.pred evt then
      ({ w with timeoutArmed := false, registered := false
                promise := w.promise.settle (.resolvedWith evt) }, true)
    else (w, false)
  else (w, false)

/-- Feeding one polled gateway event through `handleJanusEvent` and
dispatching any resulting `janus`-channel emissions to a waiter. -/
def processPolledEvent (w : Waiter) (evt : JanusEvent) : Waiter :=
  (handleJanusEvent evt).foldl
    (fun w e =>
      match e with
      | .janusChan ev => (deliver w ev).1
      | _ => w) w

/-- The concrete `joined` videoroom event used in the claims. -/
def joinedEvt : JanusEvent :=
  { janus := "event"
    plugindata := some
      { plugin := "janus.plugin.videoroom"
        data := { videoroom := "joined", idField := some 7, publishers := some [] } } }

/-- The predicate used by `joinRoom` and `initializeGuestSpeaker` for the
`joined` event (source lines 236-243 and 755-762). -/
def joinedPred (e : JanusEvent) : Bool :=
  e.janus == "event" &&
    (match e.plugindata with
     | some pd => pd.plugin == "janus.plugin.videoroom" && pd.data.videoroom == "joined"
     | none => false)

/-- A subscriber entry in the `subscribers` map: the plugin handle id and
the peer connection of that subscription (source lines 130-137). -/
structure SubEntry where
  handleId : Nat
  pc : Nat
deriving DecidableEq, Repr

/-- The mutable state of a `JanusClient` instance relevant to the claims.
Peer connections and audio sources are identified by numbers drawn from
`nextId`; `createdPCs`/`closedPCs` record every peer connection ever
constructed and every one on which `close()` was called. -/
structure ClientState where
  pollActive : Bool := false
  pc : Option Nat := none
  localAudioSource : Option Nat := none
  subscribers : List (String × SubEntry) := []
  nextId : Nat := 1
  createdPCs : List Nat := []
  closedPCs : List Nat := []
  emissions : List Emission := []
  warnLogs : List String := []
deriving DecidableEq, Repr

def initialState : ClientState := {}

/-- JS `Map.prototype.set` on an association list with unique keys:
replace in place when the key exists, append otherwise. -/
def mapSet : List (String × SubEntry) → String → SubEntry →
    List (String × SubEntry)
  | [], k, v => [(k, v)]
  | p :: t, k, v => if p.1 == k then (k, v) :: t else p :: mapSet t k v

/-- JS `Map.prototype.get`. -/
def mapGet : List (String × SubEntry) → String → Option SubEntry
  | [], _ => none
  | p :: t, k => if p.1 == k then some p.2 else mapGet t k

/-- `this.emit(...)` appending to the emission log. -/
def emitE (st : ClientState) (e : Emission) : ClientState :=
  { st with emissions := st.emissions ++ [e] }

/-- Environment outcomes for one `subscribeSpeaker` call: whether the
subscriber `attachPlugin` REST call succeeds, whether (when `feedId = 0`)
a publishers event naming the user arrives in time and with which feed id,
and whether the join request, the attached event wait, the SDP
answer steps and the start request succeed. -/
structure SubEnv where
  attachOk : Bool := true
  discovered : Option Nat := none
  joinOk : Bool := true
  attachedOk : Bool := true
  sdpOk : Bool := true
  startOk : Bool := true
deriving DecidableEq, Repr

/-- The `try` block of `subscribeSpeaker` (source lines 297-443), in
source order: attach a fresh subscriber handle; when `feedId = 0`
discover the feed from a publishers event (throwing on timeout or when no
entry matches the user); emit `subscribedSpeaker`; send the subscriber
join; await the attached event with the offer; construct the dedicated
peer connection; apply the SDP answer steps; send start; finally record
`{handleId, pc}` in the `subscribers` map via `Map.set`.  An error carries
the state reached so far (side effects before a throw persist). -/
def subscribeSpeakerBody (st : ClientState) (userId : String) (feedId : Nat)
    (env : SubEnv) : Except (ClientState × String) ClientState :=
  if !env.attachOk then .error (st, "attachPlugin failed")
  else
    let subscriberHandleId := st.nextId
    let st := { st with nextId := st.nextId + 1 }
    let feedRes : Except (ClientState × String) Nat :=
      if feedId == 0 then
        match env.discovered with
        | some f => .ok f
        | none => .error (st, "no publisher found for user")
      else .ok feedId
    match feedRes with
    | .error e => .error e
    | .ok feed =>
      let st := emitE st (.subscribedSpeaker userId feed)
      if !env.joinOk then .error (st, "sendJanusMessage join failed")
      else if !env.attachedOk then .error (st, timeoutMsg "subscriber attached + offer")
      else
        let subPc := st.nextId
        let st := { st with nextId := st.nextId + 1
                            createdPCs := st.createdPCs ++ [subPc] }
        if !env.sdpOk then .error (st, "sdp negotiation failed")
        else if !env.startOk then .error (st, "sendJanusMessage start failed")
        else .ok { st with
          subscribers := mapSet st.subscribers userId ⟨subscriberHandleId, subPc⟩ }

/-- `subscribeSpeaker` (source lines 291-449): the body wrapped in the
`catch` that logs and emits a `warning` instead of propagating.  The
result type is a plain `ClientState`: no error escapes. -/
def subscribeSpeaker (st : ClientState) (userId : String) (feedId : Nat)
    (env : SubEnv) : ClientState :=
  match subscribeSpeakerBody st userId feedId env with
  | .ok st1 => st1
  | .error (st1, msg) =>
    emitE st1 (.warning
      ("[JanusClient] Failed to subscribe to speaker " ++ userId ++ ": " ++ msg))

/-- `stop` (source lines 539-565): clear `pollActive`, close every
subscriber peer connection and clear the map, then close the publisher
peer connection (if any) and drop it. -/
def stop (st : ClientState) : ClientState :=
  let st1 : ClientState :=
    { st with pollActive := false
              closedPCs := st.closedPCs ++ st.subscribers.map (fun p => p.2.pc)
              subscribers := [] }
  match st1.pc with
  | some p => { st1 with closedPCs := st1.closedPCs ++ [p], pc := none }
  | none => st1

/-- `enableLocalAudio` (source lines 470-492): without a peer connection it
warns and returns; with an already-active source it returns; otherwise it
creates the audio source and adds the track inside a `try` whose `catch`
only logs (`createOk = false` models a throw from that block). -/
def enableLocalAudio (st : ClientState) (createOk : Bool) : ClientState :=
  match st.pc with
  | none =>
    { st with warnLogs := st.warnLogs ++
        ["[JanusClient] enableLocalAudio => No RTCPeerConnection"] }
  | some _ =>
    if st.localAudioSource.isSome then st
    else if createOk then
      { st with localAudioSource := some st.nextId, nextId := st.nextId + 1 }
    else st

/-- `this.localAudioSource?.pushPcmData(...)`: optional chaining performs
no call without a source; with one, the call may throw
(`pushOk = false`). -/
def pushPcmData (src : Option Nat) (pushOk : Bool) : Except String Unit :=
  match src with
  | none => .ok ()
  | some _ => if pushOk then .ok () else .error "pushPcmData failed"

/-- `pushLocalAudio` (source lines 454-465): warns and lazily enables the
source when absent, then pushes inside a `try` whose `catch` only logs.
The second component records that an error was caught internally.  The
result type is a plain pair: no error escapes for any state or input. -/
def pushLocalAudio (st : ClientState) (createOk pushOk : Bool) :
    ClientState × Bool :=
  let st1 :=
    if st.localAudioSource.isNone then
      enableLocalAudio
        { st with warnLogs := st.warnLogs ++
            ["[JanusClient] No localAudioSource => enabling now..."] }
        createOk
    else st
  match pushPcmData st1.localAudioSource pushOk with
  | .ok _ => (st1, false)
  | .error _ => (st1, true)

/-- An externally visible action of an operation, in source order:
registering an event waiter (with its diagnostic label), sending a REST
request to the gateway, or emitting a local notification. -/
inductive Step where
  | registerWaiter (label : String)
  | sendRequest (name : String)
  | emitStep (name : String)
deriving DecidableEq, BEq, Repr

/-- The waiter/request actions of `joinRoom` (source lines 746-783) in
source order: the joined-event waiter is created before the join request
is sent. -/
def joinRoomSteps : List Step :=
  [.registerWaiter "Host Joined Event", .sendRequest "join"]

/-- The waiter/request actions of `initializeGuestSpeaker` (source lines
223-285) in source order. -/
def initializeGuestSpeakerSteps : List Step :=
  [.sendRequest "create", .sendRequest "attach",
   .registerWaiter "Guest Speaker joined event", .sendRequest "join",
   .sendRequest "configure"]

/-- The waiter/request actions of `subscribeSpeaker` (source lines
291-449) in source order: attach, the discovery wait only when
`feedId = 0`, the `subscribedSpeaker` emission, the subscriber join
request, then (only after it) the attached-event waiter, then start. -/
def subscribeSpeakerSteps (feedId : Nat) : List Step :=
  [.sendRequest "attach"] ++
  (if feedId == 0 then
    [.registerWaiter "discover feed_id from \"publishers\""] else []) ++
  [.emitStep "subscribedSpeaker",
   .sendRequest "join subscriber",
   .registerWaiter "subscriber attached + offer",
   .sendRequest "start"]

def isRegisterStep (lbl : String) : Step → Bool
  | .registerWaiter l => l == lbl
  | _ => false

def isSendStep (req : String) : Step → Bool
  | .sendRequest r => r == req
  | _ => false

/-- `true` iff the waiter with label `lbl` is registered strictly before
the request named `req` is sent (both present). -/
def waiterBeforeRequest (steps : List Step) (lbl req : String) : Bool :=
  match steps.findIdx? (isRegisterStep lbl), steps.findIdx? (isSendStep req) with
  | some i, some j => decide (i < j)
  | _, _ => false

/-- Outcome of one long-poll fetch: a decoded event, an HTTP error
status, or a thrown fetch exception. -/
inductive PollOutcome where
  | okEvt (evt : JanusEvent)
  | httpError (status : Nat)
  | fetchExn
deriving DecidableEq, Repr

/-- Result of one iteration of `doPoll`: the `pollActive` flag afterward,
the emissions performed, the delay of the scheduled next fetch (`none`
when no further fetch is scheduled) and whether a failure was logged. -/
structure PollIter where
  activeAfter : Bool
  emissions : List Emission
  nextFetchDelay : Option Nat
  loggedFailure : Bool
deriving DecidableEq, Repr

/-- One iteration of the `doPoll` closure in `startPolling` (source lines
875-910): inactive or session-less clients return without fetching; an ok
response is handled by `handleJanusEvent`; a 404 stops polling, emits a
fatal session error and schedules nothing; any other HTTP error is logged
and the next fetch is scheduled after 500 ms, as it is after a fetch
exception and after an ok response. -/
def pollIteration (pollActive : Bool) (hasSession : Bool)
    (outcome : PollOutcome) : PollIter :=
  if !pollActive || !hasSession then
    { activeAfter := pollActive, emissions := []
      nextFetchDelay := none, loggedFailure := false }
  else
    match outcome with
    | .okEvt evt =>
      { activeAfter := pollActive, emissions := handleJanusEvent evt
        nextFetchDelay := some 500, loggedFailure := false }
    | .httpError status =>
      if status == 404 then
        { activeAfter := false
          emissions := [.errorE "[JanusClient] Session not found (404)"]
          nextFetchDelay := none, loggedFailure := true }
      else
        { activeAfter := pollActive, emissions := []
          nextFetchDelay := some 500, loggedFailure := true }
    | .fetchExn =>
      { activeAfter := pollActive, emissions := []
        nextFetchDelay := some 500, loggedFailure := true }

/-- ICE connection states of `RTCPeerConnection`. -/
inductive IceState where
  | iceNew | checking | connected | completed | disconnected | failed | closed
deriving DecidableEq, BEq, Repr

/-- An action of the publisher pipeline during ICE recovery. -/
inductive PubAction where
  | warnAction (msg : String)
  | createOfferIceRestart
  | setLocalDescriptionA
  | sendConfigure (withOffer : Bool)
deriving DecidableEq, BEq, Repr

/-- `restartIce` (source lines 497-533): without a peer connection or
handle it warns and returns; otherwise it creates one offer with
`iceRestart: true`, sets it locally and sends one `configure` request
carrying it. -/
def restartIce (hasPc : Bool) (hasHandle : Bool) : List PubAction :=
  if !hasPc || !hasHandle then
    [.warnAction "[JanusClient] Cannot restart ICE: no PC or handleId"]
  else
    [.createOfferIceRestart, .setLocalDescriptionA, .sendConfigure true]

/-- The `iceconnectionstatechange` listener installed by `setupPeerEvents`
(source lines 977-984): when the new state is `disconnected` it calls
`restartIce()` at once; it arms no timer, so timing plays no role. -/
def onIceConnectionStateChange (hasPc hasHandle : Bool) (s : IceState) :
    List PubAction :=
  if s = .disconnected then restartIce hasPc hasHandle else []

/-- Number of ICE-restart configure offers sent over a timed trace of ICE
state transitions (`(millisecond, new state)` pairs); the handler reacts
to each transition independently of time. -/
def restartOffersSent (hasPc hasHandle : Bool)
    (trace : List (Nat × IceState)) : Nat :=
  (trace.map (fun t =>
    ((onIceConnectionStateChange hasPc hasHandle t.2).filter
      (fun a => a == .sendConfigure true)).length)).sum

/-- Number of transitions to `disconnected` in a timed trace. -/
def disconnectedCount (trace : List (Nat × IceState)) : Nat :=
  (trace.filter (fun t => t.2 == IceState.disconnected)).length

/-- The subscriptions `initializeGuestSpeaker` triggers from the joined
event payload (source lines 263-277): `data.publishers || []`, each
mapped to a `subscribeSpeaker(pub.display, pub.id)` call. -/
def guestSubscribeCalls (data : VRData) : List (String × Nat) :=
  (data.publishers.getD []).map (fun pub => (pub.display, pub.id))

/-- The guest joined event of the C9 scenario: payload carries publishers
`[{display: alice, id: 55}]`. -/
def guestJoinedAliceEvt : JanusEvent :=
  { janus := "event"
    plugindata := some
      { plugin := "janus.plugin.videoroom"
        data := { videoroom := "joined", idField := some 99
                  publishers := some [⟨55, "alice"⟩] } } }



/-- Is this emission on the `janus` channel? -/
def isJanusChan : Emission → Bool
  | .janusChan _ => true
  | _ => false

/-- The last emission of the log is a `warning`. -/
def lastIsWarning (l : List Emission) : Bool :=
  match l.getLast? with
  | some (.warning _) => true
  | _ => false

/-- A sequence of `subscribeSpeaker` calls against a fresh client:
`(userId, feedId, environment)` triples applied in order. -/
def runSubscribes (calls : List (String × Nat × SubEnv)) : ClientState :=
  calls.foldl (fun st c => subscribeSpeaker st c.1 c.2.1 c.2.2) initialState

/-! ## Helper lemmas -/

/-- No branch of `handleJanusEvent` emits on the `janus` channel. -/
theorem handleJanusEvent_no_janus_emission (evt : JanusEvent) :
    (handleJanusEvent evt).all (fun e => !isJanusChan e) = true := by
  unfold handleJanusEvent
  repeat' split
  all_goals rfl

/-- Folding a dispatch over a list with no `janus`-channel emission leaves
the waiter unchanged. -/
theorem foldl_dispatch_no_janus (l : List Emission) :
    ∀ w : Waiter, l.all (fun e => !isJanusChan e) = true →
      l.foldl
        (fun w e =>
          match e with
          | Emission.janusChan ev => (deliver w ev).1
          | _ => w) w = w := by
  induction l with
  | nil => intro w _; rfl
  | cons e t ih =>
    intro w h
    rw [List.all_cons, Bool.and_eq_true] at h
    cases e with
    | janusChan ev => simp [isJanusChan] at h
    | publishersUpdated pubs => exact ih w h.2
    | hangup d => exact ih w h.2
    | errorE m => exact ih w h.2
    | warning m => exact ih w h.2
    | subscribedSpeaker u f => exact ih w h.2

/-- Polled gateway events never reach any waiter. -/
theorem processPolledEvent_eq (w : Waiter) (evt : JanusEvent) :
    processPolledEvent w evt = w :=
  foldl_dispatch_no_janus (handleJanusEvent evt) w
    (handleJanusEvent_no_janus_emission evt)

/-- `Map.set` does not disturb lookups at other keys. -/
theorem mapGet_mapSet_ne (m : List (String × SubEntry)) (u v : String)
    (e : SubEntry) (hv : v ≠ u) : mapGet (mapSet m u e) v = mapGet m v := by
  induction m with
  | nil =>
    simp only [mapSet, mapGet]
    rw [if_neg]
    simp only [beq_iff_eq]
    exact fun h => hv h.symm
  | cons p t ih =>
    simp only [mapSet]
    by_cases hp : p.1 = u
    · rw [if_pos (by simpa using hp)]
      simp only [mapGet]
      rw [if_neg (by simpa using fun h => hv h.symm),
          if_neg (by simp [hp]; exact fun h => hv h.symm)]
    · rw [if_neg (by simpa using hp)]
      simp only [mapGet]
      by_cases hpv : p.1 = v
      · rw [if_pos (by simpa using hpv), if_pos (by simpa using hpv)]
      · rw [if_neg (by simpa using hpv), if_neg (by simpa using hpv)]
        exact ih

/-- Keys appearing after a `Map.set` were present before or are the new
key. -/
theorem mem_keys_mapSet (m : List (String × SubEntry)) (k : String)
    (v : SubEntry) (a : String) (ha : a ∈ (mapSet m k v).map Prod.fst) :
    a = k ∨ a ∈ m.map Prod.fst := by
  induction m with
  | nil =>
    simp only [mapSet, List.map_cons, List.map_nil, List.mem_singleton] at ha
    exact Or.inl ha
  | cons p t ih =>
    simp only [mapSet] at ha
    by_cases hp : p.1 = k
    · rw [if_pos (by simpa using hp)] at ha
      simp only [List.map_cons, List.mem_cons] at ha
      rcases ha with ha | ha
      · exact Or.inl ha
      · exact Or.inr (by simp [ha])
    · rw [if_neg (by simpa using hp)] at ha
      simp only [List.map_cons, List.mem_cons] at ha
      rcases ha with ha | ha
      · exact Or.inr (by simp [ha])
      · rcases ih ha with h | h
        · exact Or.inl h
        · exact Or.inr (by simp [h])

/-- `Map.set` preserves uniqueness of keys. -/
theorem mapSet_keys_nodup (m : List (String × SubEntry)) (k : String)
    (v : SubEntry) (h : (m.map Prod.fst).Nodup) :
    ((mapSet m k v).map Prod.fst).Nodup := by
  induction m with
  | nil => simp [mapSet]
  | cons p t ih =>
    simp only [List.map_cons, List.nodup_cons] at h
    simp only [mapSet]
    by_cases hp : p.1 = k
    · rw [if_pos (by simpa using hp)]
      simp only [List.map_cons, List.nodup_cons]
      exact ⟨by rw [← hp]; exact h.1, h.2⟩
    · rw [if_neg (by simpa using hp)]
      simp only [List.map_cons, List.nodup_cons]
      refine ⟨fun hmem => ?_, ih h.2⟩
      rcases mem_keys_mapSet t k v p.1 hmem with h1 | h1
      · exact hp h1
      · exact h.1 h1

theorem lastIsWarning_concat (l : List Emission) (m : String) :
    lastIsWarning (l ++ [.warning m]) = true := by
  unfold lastIsWarning
  rw [List.getLast?_concat]

/-- `subscribeSpeaker` never calls `close()` on any peer connection. -/
theorem subscribeSpeaker_closedPCs (st : ClientState) (u : String) (f : Nat)
    (env : SubEnv) : (subscribeSpeaker st u f env).closedPCs = st.closedPCs := by
  obtain ⟨aOk, disc, jOk, atOk, sdOk, stOk⟩ := env
  simp only [subscribeSpeaker, subscribeSpeakerBody, emitE]
  cases aOk with
  | false => rfl
  | true =>
    cases hf : f == 0 with
    | false => cases jOk <;> cases atOk <;> cases sdOk <;> cases stOk <;> rfl
    | true =>
      cases disc with
      | none => rfl
      | some fd => cases jOk <;> cases atOk <;> cases sdOk <;> cases stOk <;> rfl

/-- `subscribeSpeaker` either leaves the map unchanged (failure) or
performs exactly one `Map.set` under the requested user id (success). -/
theorem subscribeSpeaker_subscribers_shape (st : ClientState) (u : String)
    (f : Nat) (env : SubEnv) :
    (subscribeSpeaker st u f env).subscribers = st.subscribers ∨
    ∃ e, (subscribeSpeaker st u f env).subscribers = mapSet st.subscribers u e := by
  obtain ⟨aOk, disc, jOk, atOk, sdOk, stOk⟩ := env
  simp only [subscribeSpeaker, subscribeSpeakerBody, emitE]
  cases aOk with
  | false => exact Or.inl rfl
  | true =>
    cases hf : f == 0 with
    | false =>
      cases jOk <;> cases atOk <;> cases sdOk <;> cases stOk <;>
        first
          | exact Or.inl rfl
          | exact Or.inr ⟨_, rfl⟩
    | true =>
      cases disc with
      | none => exact Or.inl rfl
      | some fd =>
        cases jOk <;> cases atOk <;> cases sdOk <;> cases stOk <;>
          first
            | exact Or.inl rfl
            | exact Or.inr ⟨_, rfl⟩

/-- When the body throws, the state it carries still holds the map of the
initial state. -/
theorem subscribeSpeakerBody_error_state (st : ClientState) (u : String)
    (f : Nat) (env : SubEnv) (st1 : ClientState) (msg : String)
    (h : subscribeSpeakerBody st u f env = .error (st1, msg)) :
    st1.subscribers = st.subscribers := by
  obtain ⟨aOk, disc, jOk, atOk, sdOk, stOk⟩ := env
  simp only [subscribeSpeakerBody, emitE] at h
  cases aOk with
  | false => cases h; rfl
  | true =>
    cases hf : f == 0 with
    | false =>
      rw [hf] at h
      cases jOk <;> cases atOk <;> cases sdOk <;> cases stOk <;> (cases h <;> rfl)
    | true =>
      rw [hf] at h
      cases disc with
      | none => cases h; rfl
      | some fd =>
        cases jOk <;> cases atOk <;> cases sdOk <;> cases stOk <;> (cases h <;> rfl)

/-- When the body throws, `subscribeSpeaker` emits a `warning` as its last
emission (the catch at source lines 444-448). -/
theorem subscribeSpeaker_error_warns (st : ClientState) (u : String) (f : Nat)
    (env : SubEnv) (st1 : ClientState) (msg : String)
    (h : subscribeSpeakerBody st u f env = .error (st1, msg)) :
    lastIsWarning (subscribeSpeaker st u f env).emissions = true := by
  unfold subscribeSpeaker
  rw [h]
  exact lastIsWarning_concat _ _

/-- One `subscribeSpeaker` call preserves uniqueness of the map keys and
never closes a peer connection. -/
theorem subscribeSpeaker_preserves_inv (st : ClientState) (u : String)
    (f : Nat) (env : SubEnv) (h1 : (st.subscribers.map Prod.fst).Nodup)
    (h2 : st.closedPCs = []) :
    ((subscribeSpeaker st u f env).subscribers.map Prod.fst).Nodup ∧
      (subscribeSpeaker st u f env).closedPCs = [] := by
  constructor
  · rcases subscribeSpeaker_subscribers_shape st u f env with h | ⟨e, h⟩
    · rw [h]; exact h1
    · rw [h]; exact mapSet_keys_nodup _ _ _ h1
  · rw [subscribeSpeaker_closedPCs]; exact h2

/-- The invariant of `subscribeSpeaker_preserves_inv`, folded over any
sequence of calls. -/
theorem runSubscribes_foldl_inv (calls : List (String × Nat × SubEnv)) :
    ∀ st : ClientState, (st.subscribers.map Prod.fst).Nodup →
      st.closedPCs = [] →
      (((calls.foldl (fun st c => subscribeSpeaker st c.1 c.2.1 c.2.2)
          st).subscribers.map Prod.fst).Nodup ∧
        (calls.foldl (fun st c => subscribeSpeaker st c.1 c.2.1 c.2.2)
          st).closedPCs = []) := by
  induction calls with
  | nil => exact fun st h1 h2 => ⟨h1, h2⟩
  | cons c t ih =>
    intro st h1 h2
    exact ih _ (subscribeSpeaker_preserves_inv st c.1 c.2.1 c.2.2 h1 h2).1
      (subscribeSpeaker_preserves_inv st c.1 c.2.1 c.2.2 h1 h2).2

/-- Per-transition count of ICE-restart configure offers with a live
publisher peer connection and handle. -/
theorem onIce_offer_count (s : IceState) :
    ((onIceConnectionStateChange true true s).filter
      (fun a => a == PubAction.sendConfigure true)).length =
    (if s == IceState.disconnected then 1 else 0) := by
  cases s <;> rfl

/-- Without a publisher peer connection no restart offer is ever sent. -/
theorem onIce_no_pc_count (hasHandle : Bool) (s : IceState) :
    ((onIceConnectionStateChange false hasHandle s).filter
      (fun a => a == PubAction.sendConfigure true)).length = 0 := by
  cases hasHandle <;> cases s <;> rfl

/-! ## Claims -/

/-- C1: the claim says a waiter registered via
`waitForJanusEventWithPredicate` with predicate P resolves with the first
delivered decoded gateway event satisfying P.  In the code no path emits
on the `janus` channel that the waiter listens on: `handleJanusEvent`
only logs and emits `publishersUpdated`/`hangup`, so feeding any polled
event leaves every waiter untouched; in particular a waiter for the
joined event, whose predicate matches the joined event, stays pending
(it can only time out). -/
theorem c1_polled_events_never_reach_waiters :
    (∀ (w : Waiter) (evt : JanusEvent), processPolledEvent w evt = w) ∧
    joinedPred joinedEvt = true ∧
    (processPolledEvent
        (waitForJanusEventWithPredicate joinedPred "Host Joined Event")
        joinedEvt).promise = PromiseState.pending ∧
    (processPolledEvent
        (waitForJanusEventWithPredicate joinedPred "Host Joined Event")
        joinedEvt).registered = true :=
  ⟨processPolledEvent_eq, by decide, rfl, rfl⟩

/-- C2 counterexample: `subscribeSpeaker("A", 55)` twice on a fresh
client.  The first call records the entry with peer connection 2; the
second call creates peer connection 4 and replaces the map entry, but
`closedPCs` stays empty: the prior peer connection is never closed,
against the claim that the second call closes it before establishing the
new one. -/
theorem c2_counterexample_prior_pc_not_closed :
    mapGet (subscribeSpeaker initialState "A" 55 {}).subscribers "A" =
      some ⟨1, 2⟩ ∧
    2 ∈ (subscribeSpeaker (subscribeSpeaker initialState "A" 55 {})
        "A" 55 {}).createdPCs ∧
    mapGet (subscribeSpeaker (subscribeSpeaker initialState "A" 55 {})
        "A" 55 {}).subscribers "A" = some ⟨3, 4⟩ ∧
    (subscribeSpeaker (subscribeSpeaker initialState "A" 55 {})
        "A" 55 {}).closedPCs = [] := by
  decide

/-- C2 amended: over any sequence of `subscribeSpeaker` calls on a fresh
client, the subscribers map holds at most one entry per participant
identifier (`Map.set` replaces in place), but `subscribeSpeaker` never
closes a peer connection: a replaced prior entry is dropped from the map
with its connection left open. -/
theorem c2_amended_unique_entries_but_no_close
    (calls : List (String × Nat × SubEnv)) :
    ((runSubscribes calls).subscribers.map Prod.fst).Nodup ∧
    (runSubscribes calls).closedPCs = [] :=
  runSubscribes_foldl_inv calls initialState (by simp [initialState]) rfl

/-- C3 counterexample: the publisher ICE state goes `disconnected` at
t = 0 ms and back to `connected` at t = 1000 ms, well within the claimed
5-second grace period, yet one ICE-restart configure offer is sent (the
claim says none is sent in this scenario). -/
theorem c3_counterexample_restart_despite_quick_reconnect :
    restartOffersSent true true
      [(0, .disconnected), (1000, .connected)] = 1 := by
  decide

/-- C3 amended: the `iceconnectionstatechange` listener starts no grace
timer; it invokes `restartIce` immediately on each transition to
`disconnected`, so with a live publisher peer connection and handle,
exactly one ICE-restart offer is sent per `disconnected` transition
regardless of timing, and none is ever sent without a peer connection. -/
theorem c3_amended_immediate_restart (trace : List (Nat × IceState)) :
    restartOffersSent true true trace = disconnectedCount trace ∧
    (∀ hasHandle : Bool, restartOffersSent false hasHandle trace = 0) := by
  constructor
  · induction trace with
    | nil => rfl
    | cons t ts ih =>
      obtain ⟨tm, s⟩ := t
      simp only [restartOffersSent, disconnectedCount, List.map_cons,
        List.sum_cons, List.filter_cons] at *
      rw [onIce_offer_count]
      cases hs : s == IceState.disconnected <;> simp [hs, ih, Nat.add_comm]
  · intro hasHandle
    induction trace with
    | nil => rfl
    | cons t ts ih =>
      obtain ⟨tm, s⟩ := t
      simp only [restartOffersSent, List.map_cons, List.sum_cons] at *
      rw [onIce_no_pc_count hasHandle]
      simp [ih]

/-- C4 counterexample: a waiter for the joined event whose timeout fires
before any matching event.  The promise is rejected with the
label-carrying timeout error, but the handler is still registered on the
event bus (against the claim that it is unregistered at that moment),
and a matching event delivered afterwards still invokes the handler
(against the claim that it does not). -/
theorem c4_counterexample_timeout_does_not_unregister :
    (fireTimeout (waitForJanusEventWithPredicate joinedPred
        "Host Joined Event")).promise =
      PromiseState.rejectedWith (timeoutMsg "Host Joined Event") ∧
    (fireTimeout (waitForJanusEventWithPredicate joinedPred
        "Host Joined Event")).registered = true ∧
    (deliver (fireTimeout (waitForJanusEventWithPredicate joinedPred
        "Host Joined Event")) joinedEvt).2 = true :=
  ⟨rfl, rfl, rfl⟩

/-- C4 amended: when the timeout elapses first, the wait fails with the
timeout error carrying its label, but the handler is NOT unregistered; a
matching event delivered later still invokes the handler, which only
then removes itself and attempts a resolve that cannot change the
already-rejected promise. -/
theorem c4_amended_timeout_rejects_handler_stays (pred : JanusEvent → Bool)
    (label : String) (evt : JanusEvent) (hm : pred evt = true) :
    (fireTimeout (waitForJanusEventWithPredicate pred label)).promise =
      PromiseState.rejectedWith (timeoutMsg label) ∧
    (fireTimeout (waitForJanusEventWithPredicate pred label)).registered =
      true ∧
    (deliver (fireTimeout (waitForJanusEventWithPredicate pred label))
        evt).2 = true ∧
    (deliver (fireTimeout (waitForJanusEventWithPredicate pred label))
        evt).1.registered = false ∧
    (deliver (fireTimeout (waitForJanusEventWithPredicate pred label))
        evt).1.promise = PromiseState.rejectedWith (timeoutMsg label) := by
  refine ⟨rfl, rfl, ?_, ?_, ?_⟩ <;>
    simp [deliver, fireTimeout, waitForJanusEventWithPredicate,
      PromiseState.settle, hm]

/-- Witness for the C4 amended theorem at the joined event and its
predicate. -/
theorem c4_amended_timeout_rejects_handler_stays_witness :
    joinedPred joinedEvt = true ∧
    (deliver (fireTimeout (waitForJanusEventWithPredicate joinedPred
        "Host Joined Event")) joinedEvt).1.registered = false :=
  ⟨by decide,
    (c4_amended_timeout_rejects_handler_stays joinedPred "Host Joined Event"
      joinedEvt (by decide)).2.2.2.1⟩

/-- C5 counterexample: in `subscribeSpeaker` the subscriber join request
(source line 345) is sent strictly before the waiter for the attached
event (source line 348) is registered — the attached-event waiter is at
index 3, after the join request at index 2 — against the claim that
every operation registers its waiter before the triggering request. -/
theorem c5_counterexample_subscriber_join_before_attached_waiter :
    (subscribeSpeakerSteps 55).findIdx?
      (isSendStep "join subscriber") = some 2 ∧
    (subscribeSpeakerSteps 55).findIdx?
      (isRegisterStep "subscriber attached + offer") = some 3 ∧
    waiterBeforeRequest (subscribeSpeakerSteps 55)
      "subscriber attached + offer" "join subscriber" = false := by
  decide

/-- C5 amended: the host join (`joinRoom`) and the guest join
(`initializeGuestSpeaker`) register their joined-event waiter before
sending the join request, but the subscriber-attach wait in
`subscribeSpeaker` registers its waiter only after the subscriber join
request has been sent, for every feed id. -/
theorem c5_amended_waiter_ordering :
    waiterBeforeRequest joinRoomSteps "Host Joined Event" "join" = true ∧
    waiterBeforeRequest initializeGuestSpeakerSteps
      "Guest Speaker joined event" "join" = true ∧
    ∀ f : Nat, waiterBeforeRequest (subscribeSpeakerSteps f)
      "subscriber attached + offer" "join subscriber" = false := by
  refine ⟨by decide, by decide, fun f => ?_⟩
  cases f with
  | zero => decide
  | succ n => rfl

/-- C6: one poll iteration with polling active.  A fetch exception or an
HTTP error with status other than 404 is logged and the next fetch is
scheduled after the fixed 500 ms delay with polling still active and no
fatal emission; a 404 clears the active flag, emits the fatal session
error and schedules no further fetch. -/
theorem c6_poll_loop_error_handling (s : Nat) (hs : s ≠ 404) :
    ((pollIteration true true (.httpError s)).loggedFailure = true ∧
     (pollIteration true true (.httpError s)).nextFetchDelay = some 500 ∧
     (pollIteration true true (.httpError s)).activeAfter = true ∧
     (pollIteration true true (.httpError s)).emissions = []) ∧
    ((pollIteration true true .fetchExn).loggedFailure = true ∧
     (pollIteration true true .fetchExn).nextFetchDelay = some 500 ∧
     (pollIteration true true .fetchExn).activeAfter = true) ∧
    ((pollIteration true true (.httpError 404)).activeAfter = false ∧
     (pollIteration true true (.httpError 404)).emissions =
       [.errorE "[JanusClient] Session not found (404)"] ∧
     (pollIteration true true (.httpError 404)).nextFetchDelay = none) := by
  have hb : (s == 404) = false := by
    simp only [beq_eq_false_iff_ne, ne_eq]
    exact hs
  refine ⟨?_, by decide, by decide⟩
  simp [pollIteration, hb]

/-- Witness for the C6 theorem at HTTP status 500. -/
theorem c6_poll_loop_error_handling_witness :
    (pollIteration true true (.httpError 500)).loggedFailure = true ∧
    (pollIteration true true (.httpError 500)).nextFetchDelay = some 500 :=
  ⟨(c6_poll_loop_error_handling 500 (by decide)).1.1,
   (c6_poll_loop_error_handling 500 (by decide)).1.2.1⟩

/-- C7: whatever step of `subscribeSpeaker` throws (attach, feed
discovery, join, peer-connection/SDP setup, start), the catch keeps the
result a plain state — the error is not propagated — with a `warning` as
the last emission, the subscribers map unchanged, and in particular the
entry of every other participant unchanged. -/
theorem c7_subscribe_failure_isolated (st : ClientState) (u : String)
    (f : Nat) (env : SubEnv) (v : String) (st1 : ClientState) (msg : String)
    (hv : v ≠ u)
    (herr : subscribeSpeakerBody st u f env = .error (st1, msg)) :
    (subscribeSpeaker st u f env).subscribers = st.subscribers ∧
    mapGet (subscribeSpeaker st u f env).subscribers v =
      mapGet st.subscribers v ∧
    lastIsWarning (subscribeSpeaker st u f env).emissions = true := by
  have hne : v ≠ u := hv
  have hsub : (subscribeSpeaker st u f env).subscribers = st.subscribers := by
    unfold subscribeSpeaker
    rw [herr]
    exact subscribeSpeakerBody_error_state st u f env st1 msg herr
  exact ⟨hsub, by rw [hsub],
    subscribeSpeaker_error_warns st u f env st1 msg herr⟩

/-- Witness for the C7 theorem: the attach step fails for user A; the
entry of user B is untouched and the map stays empty. -/
theorem c7_subscribe_failure_isolated_witness :
    ("B" : String) ≠ "A" ∧
    subscribeSpeakerBody initialState "A" 55 { attachOk := false } =
      .error (initialState, "attachPlugin failed") ∧
    (subscribeSpeaker initialState "A" 55 { attachOk := false }).subscribers
      = [] :=
  ⟨by decide, rfl,
    (c7_subscribe_failure_isolated initialState "A" 55 { attachOk := false }
      "B" initialState "attachPlugin failed" (by decide) rfl).1⟩

/-- C8: `stop` clears the polling flag, closes the peer connection of
every entry of the subscribers map and empties it, closes the publisher
peer connection and drops it, and is idempotent: a second call changes
nothing and raises nothing (the model of `stop` is a total function). -/
theorem c8_stop_idempotent_closes_all (st : ClientState) :
    (stop st).pollActive = false ∧
    (stop st).subscribers = [] ∧
    (stop st).pc = none ∧
    (st.subscribers.map (fun p => p.2.pc)).all
      (fun q => (stop st).closedPCs.contains q) = true ∧
    (match st.pc with
     | some q => (stop st).closedPCs.contains q
     | none => true) = true ∧
    stop (stop st) = stop st := by
  obtain ⟨pa, pc, las, subs, nid, cps, clps, ems, wls⟩ := st
  cases pc with
  | none =>
    refine ⟨rfl, rfl, rfl, ?_, rfl, ?_⟩
    · rw [List.all_eq_true]
      intro q hq
      exact List.elem_iff.mpr (List.mem_append_right clps hq)
    · simp [stop]
  | some p =>
    refine ⟨rfl, rfl, rfl, ?_, ?_, ?_⟩
    · rw [List.all_eq_true]
      intro q hq
      exact List.elem_iff.mpr
        (List.mem_append_left _ (List.mem_append_right clps hq))
    · exact List.elem_iff.mpr (List.mem_append_right _ (by simp))
    · simp [stop]

/-- C9: a guest joined event whose payload carries publishers
`[(alice, 55)]` triggers exactly one automatic
`subscribeSpeaker(alice, 55)` call; since the feed id 55 is non-zero,
`subscribeSpeaker` performs no publishers-list discovery wait (that wait
occurs exactly when the feed id is 0), and the call completes without
any publishers event being available. -/
theorem c9_guest_alice_single_subscribe_skips_discovery :
    (guestJoinedAliceEvt.plugindata.map
      (fun pd => guestSubscribeCalls pd.data)) = some [("alice", 55)] ∧
    (guestJoinedAliceEvt.plugindata.map
      (fun pd => (guestSubscribeCalls pd.data).length)) = some 1 ∧
    (subscribeSpeakerSteps 55).contains
      (Step.registerWaiter "discover feed_id from \"publishers\"") = false ∧
    (subscribeSpeakerSteps 0).contains
      (Step.registerWaiter "discover feed_id from \"publishers\"") = true ∧
    (subscribeSpeaker initialState "alice" 55
      { discovered := none }).subscribers = [("alice", ⟨1, 2⟩)] := by
  decide

/-- C10: `pushLocalAudio` is a total function for every state and input
(every fallible step is wrapped): it never touches the peer connection,
the subscribers map or the polling flag; a caught push error is exactly
an error of the inner `pushPcmData`; without a peer connection the lazy
enable leaves the audio source unchanged, and when the source is also
absent it merely records the two warnings and pushes nothing. -/
theorem c10_pushLocalAudio_total_and_safe (st : ClientState)
    (createOk pushOk : Bool) :
    (pushLocalAudio st createOk pushOk).1.pc = st.pc ∧
    (pushLocalAudio st createOk pushOk).1.subscribers = st.subscribers ∧
    (pushLocalAudio st createOk pushOk).1.pollActive = st.pollActive ∧
    ((pushLocalAudio st createOk pushOk).2 = true →
      pushPcmData (pushLocalAudio st createOk pushOk).1.localAudioSource
        pushOk = .error "pushPcmData failed") ∧
    (st.pc = none →
      (pushLocalAudio st createOk pushOk).1.localAudioSource =
        st.localAudioSource) ∧
    (st.pc = none → st.localAudioSource = none →
      (pushLocalAudio st createOk pushOk).2 = false ∧
      (pushLocalAudio st createOk pushOk).1.warnLogs =
        st.warnLogs ++
          ["[JanusClient] No localAudioSource => enabling now...",
           "[JanusClient] enableLocalAudio => No RTCPeerConnection"]) := by
  obtain ⟨pa, pc, las, subs, nid, cps, clps, ems, wls⟩ := st
  cases las <;> cases pc <;> cases createOk <;> cases pushOk <;>
    simp [pushLocalAudio, enableLocalAudio, pushPcmData]

/-- Witness for the C10 theorem on a fresh client (no peer connection,
no audio source). -/
theorem c10_pushLocalAudio_total_and_safe_witness :
    initialState.pc = none ∧ initialState.localAudioSource = none ∧
    (pushLocalAudio initialState true true).2 = false :=
  ⟨rfl, rfl,
    ((c10_pushLocalAudio_total_and_safe initialState true true).2.2.2.2.2
      rfl rfl).1⟩

end JanusClient
